import Mathlib

/-
Verification development for the goblet caching git proxy.

The tree holds the server entry point (goblet-server/main.go): metric view
declarations, the healthz handler, the request logger, and the ServerConfig
wiring. The proxy engine itself (repository cache manager, upstream fetch
coordinator, protocol front door, command executor) is declared in the
spec but its source is not in the tree; those parts are modelled from the
spec, and each such definition says so in its doc comment.
-/

namespace Goblet

/-- Tag keys referenced by the metric views in goblet-server/main.go
(goblet.CommandTypeKey, goblet.CommandCanonicalStatusKey,
goblet.CommandCacheStateKey). -/
inductive TagKey where
  | commandTypeKey
  | commandCanonicalStatusKey
  | commandCacheStateKey
deriving DecidableEq, BEq

/-- Measures referenced by the metric views in goblet-server/main.go. -/
inductive Measure where
  | inboundCommandCount
  | inboundCommandProcessingTime
  | outboundCommandCount
  | outboundCommandProcessingTime
  | upstreamFetchWaitingTime
deriving DecidableEq, BEq

/-- Aggregation of a metric view: view.Count() or view.Distribution(bounds).
The distribution bounds in main.go are integral millisecond values. -/
inductive Aggregation where
  | count
  | distribution (bounds : List Nat)
deriving DecidableEq

/-- One opencensus view as declared in goblet-server/main.go: name,
description, tag keys, measure, aggregation. -/
structure View where
  name : String
  description : String
  tagKeys : List TagKey
  measure : Measure
  aggregation : Aggregation

/-- latencyDistributionAggregation from goblet-server/main.go. -/
def latencyDistributionAggregation : Aggregation :=
  .distribution [100, 200, 400, 800, 1000, 2000, 4000, 8000, 10000,
    20000, 40000, 80000, 100000, 200000, 400000, 800000, 1000000,
    2000000, 4000000, 8000000]

/-- The inbound-command-count view (main.go, views slice, first element). -/
def inboundCountView : View :=
  { name := "github.com/google/goblet/inbound-command-count"
    description := "Inbound command count"
    tagKeys := [.commandTypeKey, .commandCanonicalStatusKey, .commandCacheStateKey]
    measure := .inboundCommandCount
    aggregation := .count }

/-- The inbound-command-latency view (main.go, views slice, second element). -/
def inboundLatencyView : View :=
  { name := "github.com/google/goblet/inbound-command-latency"
    description := "Inbound command latency"
    tagKeys := [.commandTypeKey, .commandCanonicalStatusKey, .commandCacheStateKey]
    measure := .inboundCommandProcessingTime
    aggregation := latencyDistributionAggregation }

/-- The outbound-command-count view (main.go, views slice, third element). -/
def outboundCountView : View :=
  { name := "github.com/google/goblet/outbound-command-count"
    description := "Outbound command count"
    tagKeys := [.commandTypeKey, .commandCanonicalStatusKey]
    measure := .outboundCommandCount
    aggregation := .count }

/-- The outbound-command-latency view (main.go, views slice, fourth element). -/
def outboundLatencyView : View :=
  { name := "github.com/google/goblet/outbound-command-latency"
    description := "Outbound command latency"
    tagKeys := [.commandTypeKey, .commandCanonicalStatusKey]
    measure := .outboundCommandProcessingTime
    aggregation := latencyDistributionAggregation }

/-- The upstream-fetch-blocking-time view (main.go, views slice, fifth
element); it declares no tag keys. -/
def upstreamFetchBlockingTimeView : View :=
  { name := "github.com/google/goblet/upstream-fetch-blocking-time"
    description := "Duration that requests are waiting for git-fetch from the upstream"
    tagKeys := []
    measure := .upstreamFetchWaitingTime
    aggregation := latencyDistributionAggregation }

/-- The views slice registered by main (goblet-server/main.go). -/
def views : List View :=
  [inboundCountView, inboundLatencyView, outboundCountView,
   outboundLatencyView, upstreamFetchBlockingTimeView]

/-- Number of occurrences of a measure in an emission list. -/
def countMeasure (ms : List Measure) (m : Measure) : Nat :=
  ms.count m

/-- An inbound HTTP request, reduced to the fields the embedded handlers
inspect. -/
structure HttpRequest where
  method : String
  path : String
deriving DecidableEq

/-- An HTTP response as produced by the healthz handler: the Content-Type
header it sets and the body it writes. -/
structure HttpResponse where
  contentType : String
  body : String
deriving DecidableEq

/-- The /healthz handler registered in main (goblet-server/main.go): sets
Content-Type to text/plain and writes the string "ok" followed by a
newline (io.WriteString(w, "ok\n")). It ignores the request. -/
def healthzHandler (_req : HttpRequest) : HttpResponse :=
  { contentType := "text/plain", body := "ok\n" }

/-- One line written by the request logger rl in main.go: the request dump
plus status, request size, response size and latency, exactly the verbs of
its log.Printf format string. -/
structure LogLine where
  dump : String
  status : Int
  requestSize : Int
  responseSize : Int
  latency : Int
deriving DecidableEq

/-- The request logger rl from goblet-server/main.go. Its call to
httputil.DumpRequest is external, so its outcome is a parameter: on a dump
error the function returns with no log line and the error is dropped;
on success it logs one line with the dump and all four numbers. -/
def rl (dumpResult : Except String String) (status : Int)
    (requestSize responseSize : Int) (latency : Int) : Option LogLine :=
  match dumpResult with
  | .error _ => none
  | .ok dump => some ⟨dump, status, requestSize, responseSize, latency⟩

/-- The handle returned by the long-running-operation logger lrol in
main.go (logBasedOperation: the action and the target URL it prints). -/
structure RunningOperation where
  action : String
  url : String
deriving DecidableEq

/-- The long-running-operation logger lrol from goblet-server/main.go. -/
def lrol (action : String) (u : String) : RunningOperation :=
  ⟨action, u⟩

/-- The error-reporter variable er in main (goblet-server/main.go line 104):
declared `var er func(*http.Request, error)` and never assigned, so it
holds the Go zero value nil, modelled as none. -/
def er : Option (HttpRequest → String → Unit) := none

/-- goblet.ServerConfig as populated by main: cache root, canonicalizer,
error reporter, request logger, long-running-operation logger. -/
structure ServerConfig where
  localDiskCacheRoot : String
  urlCanonializer : String → Except String String
  errorReporter : Option (HttpRequest → String → Unit)
  requestLogger : Option (Except String String → Int → Int → Int → Int → Option LogLine)
  longRunningOperationLogger : Option (String → String → RunningOperation)

/-- The config value built in main (goblet-server/main.go lines 117-123) and
handed to goblet.HTTPHandler. The cache-root flag value and the external
canonicalizer googlehook.CanonicalizeURL are parameters. -/
def mainConfig (cacheRoot : String) (canon : String → Except String String) : ServerConfig :=
  { localDiskCacheRoot := cacheRoot
    urlCanonializer := canon
    errorReporter := er
    requestLogger := some rl
    longRunningOperationLogger := some lrol }

/-- Modelled from the spec: the MirrorEntry state set
{Uninitialized, Fresh, Refreshing, Stale, Failed} (spec §3); the
MirrorEntry type itself is not in the tree. -/
inductive EntryState where
  | uninitialized
  | fresh
  | refreshing
  | stale
  | failed
deriving DecidableEq, BEq

/-- Modelled from the spec: the per-entry state seen by the upstream fetch
coordinator (spec §4.3), whose source is not in the tree — the entry state,
the callers waiting on an in-flight refresh, the number of outbound
fetches currently executing for this entry, and the results delivered to
callers so far (caller id paired with the refresh outcome it inherited). -/
structure CoordState where
  estate : EntryState
  waiters : List Nat
  inFlight : Nat
  delivered : List (Nat × Bool)
deriving DecidableEq

/-- Modelled from the spec: the state of a lazily created entry before any
fetch (spec §3 lifecycle: state=Uninitialized, no waiters, no fetch in
flight). -/
def coordInit : CoordState :=
  ⟨.uninitialized, [], 0, []⟩

/-- Modelled from the spec: a caller entering ensureFresh (spec §4.3, not in
the tree). If the entry is Refreshing the caller joins the waiters of the
in-flight refresh, emitting an upstream-fetch-blocking-time sample and no
outbound fetch; otherwise the caller becomes the refresher: the entry
moves to Refreshing and one outbound fetch starts. -/
def ensureFreshArrive (s : CoordState) (c : Nat) : CoordState × List Measure :=
  if s.estate = .refreshing then
    ({ s with waiters := c :: s.waiters }, [.upstreamFetchWaitingTime])
  else
    ({ s with estate := .refreshing, inFlight := s.inFlight + 1 }, [])

/-- Modelled from the spec: the state after the in-flight refresh completes
(spec §4.3, not in the tree): the entry moves to Fresh on success or
Failed on error, the fetch leaves flight, and every waiter is woken with
the refresher's result. -/
def refreshCompleteState (s : CoordState) (ok : Bool) : CoordState :=
  { estate := if ok then .fresh else .failed
    waiters := []
    inFlight := s.inFlight - 1
    delivered := s.waiters.map (fun w => (w, ok)) ++ s.delivered }

/-- Modelled from the spec: completion of the in-flight refresh (spec §4.3,
not in the tree): only valid while Refreshing; it applies
refreshCompleteState and emits one outbound-command-count and one
outbound-command-latency measurement for the actual fetch performed. -/
def refreshComplete (s : CoordState) (ok : Bool) : Option (CoordState × List Measure) :=
  if s.estate = .refreshing then
    some (refreshCompleteState s ok,
          [.outboundCommandCount, .outboundCommandProcessingTime])
  else
    none

/-- Modelled from the spec: the coordinator states reachable from a fresh
entry by any interleaving of ensureFresh arrivals and refresh
completions. -/
inductive Reachable : CoordState → Prop where
  | init : Reachable coordInit
  | arrive (c : Nat) {s : CoordState} : Reachable s → Reachable (ensureFreshArrive s c).1
  | complete (ok : Bool) {s s' : CoordState} {ms : List Measure} :
      Reachable s → refreshComplete s ok = some (s', ms) → Reachable s'

/-- In every reachable coordinator state, the number of outbound fetches in
flight is 1 exactly while the entry is Refreshing, and 0 otherwise. -/
theorem reachable_inFlight {s : CoordState} (h : Reachable s) :
    s.inFlight = (if s.estate = .refreshing then 1 else 0) := by
  induction h with
  | init => rfl
  | arrive c h ih =>
    rename_i t
    by_cases hr : t.estate = EntryState.refreshing
    · simpa [ensureFreshArrive, hr] using ih
    · simp [hr] at ih
      simp [ensureFreshArrive, hr, ih]
  | complete ok h hc ih =>
    rename_i t s' ms
    by_cases hr : t.estate = EntryState.refreshing
    · rw [refreshComplete, if_pos hr] at hc
      injection hc with hc
      injection hc with h1 h2
      subst h1
      rw [if_pos hr] at ih
      cases ok <;> simp [refreshCompleteState, ih]
    · rw [refreshComplete, if_neg hr] at hc
      cases hc

/-- In every reachable coordinator state, the Stale state is never entered:
the spec describes no transition into it (freshness is miss-driven). -/
theorem reachable_not_stale {s : CoordState} (h : Reachable s) :
    s.estate ≠ .stale := by
  induction h with
  | init => simp [coordInit]
  | arrive c h ih =>
    rename_i t
    by_cases hr : t.estate = EntryState.refreshing
    · simp [ensureFreshArrive, hr]
    · simp [ensureFreshArrive, hr]
  | complete ok h hc ih =>
    rename_i t s' ms
    by_cases hr : t.estate = EntryState.refreshing
    · rw [refreshComplete, if_pos hr] at hc
      injection hc with hc
      injection hc with h1 h2
      subst h1
      cases ok <;> simp [refreshCompleteState]
    · rw [refreshComplete, if_neg hr] at hc
      cases hc

/-- C1: in every reachable coordinator state at most one upstream refresh is
in flight; and a caller that arrives while the entry is Refreshing starts
no second fetch (the in-flight count is unchanged and the entry stays
Refreshing) but is recorded as a waiter, and when the in-flight refresh
completes that caller inherits its result, success or error. -/
theorem single_flight (s : CoordState) (c : Nat) (ok : Bool) (h : Reachable s) :
    s.inFlight ≤ 1 ∧
    (s.estate = .refreshing →
      (ensureFreshArrive s c).1.inFlight = s.inFlight ∧
      (ensureFreshArrive s c).1.estate = .refreshing ∧
      c ∈ (ensureFreshArrive s c).1.waiters ∧
      ∀ s' ms, refreshComplete (ensureFreshArrive s c).1 ok = some (s', ms) →
        (c, ok) ∈ s'.delivered) := by
  have hf := reachable_inFlight h
  constructor
  · rw [hf]; split <;> simp
  · intro hr
    refine ⟨by simp [ensureFreshArrive, hr], by simp [ensureFreshArrive, hr],
      by simp [ensureFreshArrive, hr], ?_⟩
    intro s' ms hc
    have h1 : (ensureFreshArrive s c).1 = { s with waiters := c :: s.waiters } := by
      simp [ensureFreshArrive, hr]
    rw [h1, refreshComplete, if_pos hr] at hc
    injection hc with hc
    injection hc with h2 h3
    subst h2
    simp [refreshCompleteState]

/-- C1 witness: the state after one arrival on a fresh entry is reachable
and Refreshing; a second caller arriving there adds no fetch and inherits
the refresh result. -/
theorem single_flight_witness :
    (ensureFreshArrive coordInit 0).1.inFlight ≤ 1 ∧
    ((ensureFreshArrive coordInit 0).1.estate = .refreshing →
      (ensureFreshArrive (ensureFreshArrive coordInit 0).1 1).1.inFlight =
        (ensureFreshArrive coordInit 0).1.inFlight ∧
      (ensureFreshArrive (ensureFreshArrive coordInit 0).1 1).1.estate = .refreshing ∧
      1 ∈ (ensureFreshArrive (ensureFreshArrive coordInit 0).1 1).1.waiters ∧
      ∀ s' ms,
        refreshComplete (ensureFreshArrive (ensureFreshArrive coordInit 0).1 1).1 true =
          some (s', ms) → (1, true) ∈ s'.delivered) :=
  single_flight (ensureFreshArrive coordInit 0).1 1 true
    (Reachable.arrive 0 Reachable.init)

/-- The transition set asserted by the claim, in the claim's own words:
Uninitialized→Refreshing, Refreshing→Fresh (successful refresh),
Refreshing→Failed (failing refresh), and nothing else. -/
def claimedTransition : EntryState → EntryState → Bool
  | .uninitialized, .refreshing => true
  | .refreshing, .fresh => true
  | .refreshing, .failed => true
  | _, _ => false

/-- C2 counterexample: the Failed state is reachable (one arrival, then a
failing refresh), and a further ensureFresh arrival there re-enters
Refreshing — a Failed→Refreshing transition, which the claim's transition
set does not admit. -/
theorem failed_reenters_refreshing :
    Reachable (⟨.failed, [], 0, []⟩ : CoordState) ∧
    (ensureFreshArrive (⟨.failed, [], 0, []⟩ : CoordState) 1).1.estate = .refreshing ∧
    claimedTransition .failed .refreshing = false :=
  ⟨@Reachable.complete false (ensureFreshArrive coordInit 0).1
      (⟨.failed, [], 0, []⟩ : CoordState)
      [.outboundCommandCount, .outboundCommandProcessingTime]
      (Reachable.arrive 0 Reachable.init) (by decide),
   by decide, by decide⟩

/-- C2 (amended): a refresh attempt takes an entry into Refreshing, a
successful refresh Refreshing→Fresh, a failing refresh Refreshing→Failed;
additionally a later ensureFresh on a non-Refreshing entry (including
Fresh after a miss, or Failed on retry) re-enters Refreshing, while an
arrival during Refreshing leaves the state unchanged; no other transition
is reachable, and Stale is never entered. -/
theorem mirror_entry_transitions (s : CoordState) (h : Reachable s) :
    (s.estate = .uninitialized ∨ s.estate = .refreshing ∨
     s.estate = .fresh ∨ s.estate = .failed) ∧
    (∀ c : Nat,
      ((ensureFreshArrive s c).1.estate = s.estate ∧ s.estate = .refreshing) ∨
      ((ensureFreshArrive s c).1.estate = .refreshing ∧ s.estate ≠ .refreshing)) ∧
    (∀ (ok : Bool) (s' : CoordState) (ms : List Measure),
      refreshComplete s ok = some (s', ms) →
        s.estate = .refreshing ∧
        s'.estate = (if ok then .fresh else .failed)) := by
  refine ⟨?_, ?_, ?_⟩
  · have hns := reachable_not_stale h
    cases hs : s.estate <;> simp_all
  · intro c
    by_cases hr : s.estate = EntryState.refreshing
    · exact Or.inl ⟨by simp [ensureFreshArrive, hr], hr⟩
    · exact Or.inr ⟨by simp [ensureFreshArrive, hr], hr⟩
  · intro ok s' ms hc
    rw [refreshComplete] at hc
    split at hc
    · rename_i hr
      injection hc with hc
      injection hc with h1 h2
      subst h1
      exact ⟨hr, rfl⟩
    · cases hc

/-- C2 witness: the transition theorem applied at the initial entry state,
whose reachability is immediate. -/
theorem mirror_entry_transitions_witness :
    coordInit.estate = .uninitialized ∨ coordInit.estate = .refreshing ∨
    coordInit.estate = .fresh ∨ coordInit.estate = .failed :=
  (mirror_entry_transitions coordInit Reachable.init).1

/-- Modelled from the spec: the outcome the command executor reports for one
attempt at a command (spec §4.4, not in the tree): served, a hard
execution failure, or the MissingObject control signal. -/
inductive ExecOutcome where
  | served
  | execFailed
  | missingObject
deriving DecidableEq

/-- Modelled from the spec: the client-visible result of one inbound
command. -/
inductive CmdResult where
  | ok
  | err
  | hardError
deriving DecidableEq

/-- Modelled from the spec: the front door's miss-driven retry loop (spec
§4.1/§4.4, not in the tree). The executor's outcome for the first attempt
and for the single retry are parameters; the Nat result counts the
ensureFresh cycles triggered by MissingObject. A first MissingObject
triggers one ensureFresh and one retry; a MissingObject on the retry is a
hard error, with no further refresh. -/
def serveCommand (first retry : ExecOutcome) : CmdResult × Nat :=
  match first with
  | .served => (.ok, 0)
  | .execFailed => (.err, 0)
  | .missingObject =>
    match retry with
    | .served => (.ok, 1)
    | .execFailed => (.err, 1)
    | .missingObject => (.hardError, 1)

/-- C3: a MissingObject condition triggers exactly one refresh-and-retry
cycle per inbound command — the refresh count is 1 when the first attempt
reports MissingObject and 0 otherwise, never more — and a second
MissingObject for the same command surfaces as a hard error rather than
another refresh. -/
theorem miss_retry_once (first retry : ExecOutcome) :
    (serveCommand first retry).2 ≤ 1 ∧
    (serveCommand first retry).2 = (if first = .missingObject then 1 else 0) ∧
    serveCommand .missingObject .missingObject = (.hardError, 1) := by
  cases first <;> cases retry <;> simp [serveCommand]

/-- Modelled from the spec: one locally cached repository (spec §3
MirrorEntry, not in the tree): its canonical key, the on-disk location of
the bare mirror, and its state. -/
structure MirrorEntry where
  key : String
  localPath : String
  state : EntryState
deriving DecidableEq

/-- Modelled from the spec: the repository cache manager's map from
canonical URL to MirrorEntry plus the set of on-disk directories created
(spec §4.2, not in the tree). Insertion is atomic (spec §5), so concurrent
first accesses are interleavings of atomic resolve calls. -/
structure CacheMgr where
  entries : List (String × MirrorEntry)
  dirs : List String
deriving DecidableEq

/-- Modelled from the spec: deterministic, collision-free directory naming
as a function of the canonical URL (spec §6); modelled as the URL
itself. -/
def dirFor (url : String) : String := url

/-- Modelled from the spec: resolve(url) of the repository cache manager
(spec §4.2, not in the tree): returns the existing entry if the URL has
been seen, otherwise atomically creates the on-disk directory and a new
entry in state Uninitialized. -/
def resolve (m : CacheMgr) (url : String) : MirrorEntry × CacheMgr :=
  match m.entries.lookup url with
  | some e => (e, m)
  | none =>
    let e : MirrorEntry := ⟨url, dirFor url, .uninitialized⟩
    (e, ⟨(url, e) :: m.entries, dirFor url :: m.dirs⟩)

/-- C5: resolve is idempotent — a second resolve of the same URL returns the
identical entry and changes nothing, so under serialized (atomic)
first-access races exactly one creation wins and later callers observe
it — and the first resolve of an unseen URL creates the on-disk directory
and an initialized (Uninitialized) entry recorded under that URL. -/
theorem resolve_idempotent (m : CacheMgr) (url : String) :
    resolve (resolve m url).2 url = ((resolve m url).1, (resolve m url).2) ∧
    (m.entries.lookup url = none →
      (resolve m url).1.state = .uninitialized ∧
      (resolve m url).1.key = url ∧
      (resolve m url).1.localPath ∈ (resolve m url).2.dirs ∧
      (resolve m url).2.entries.lookup url = some (resolve m url).1) := by
  constructor
  · cases hl : m.entries.lookup url <;>
      simp [resolve, hl, List.lookup]
  · intro hl
    simp [resolve, hl, List.lookup]

/-- C5 witness: resolving a fresh URL in an empty cache manager creates the
directory and an Uninitialized entry under that URL. -/
theorem resolve_idempotent_witness :
    (resolve (CacheMgr.mk [] []) "https://upstream.example/repo").1.state = .uninitialized ∧
    (resolve (CacheMgr.mk [] []) "https://upstream.example/repo").1.key =
      "https://upstream.example/repo" ∧
    (resolve (CacheMgr.mk [] []) "https://upstream.example/repo").1.localPath ∈
      (resolve (CacheMgr.mk [] []) "https://upstream.example/repo").2.dirs ∧
    (resolve (CacheMgr.mk [] []) "https://upstream.example/repo").2.entries.lookup
      "https://upstream.example/repo" =
      some (resolve (CacheMgr.mk [] []) "https://upstream.example/repo").1 :=
  (resolve_idempotent (CacheMgr.mk [] []) "https://upstream.example/repo").2 rfl

/-- Modelled from the spec: the inbound command types (spec §3 Command). -/
inductive CommandType where
  | infoRefs
  | uploadPack
  | receivePack
deriving DecidableEq

/-- Modelled from the spec: what the front door did with a request — served
it from the local mirror, or forwarded the given body verbatim to the
upstream origin and relayed the response. -/
inductive HandleOutcome where
  | servedFromMirror (url : String)
  | forwardedUpstream (body : List Nat)
deriving DecidableEq

/-- Modelled from the spec: the state the front door can touch — the cache
manager and a counter of refreshes triggered so far. -/
structure ProxyState where
  cache : CacheMgr
  refreshes : Nat
deriving DecidableEq

/-- Modelled from the spec: the protocol front door (spec §4.1, not in the
tree). The read path (InfoRefs/UploadPack) resolves the mirror entry and,
when it is not Fresh, triggers a refresh (abstracted here to a counter;
the coordinator itself is modelled by ensureFreshArrive/refreshComplete);
the write path (ReceivePack) forwards the request body verbatim to the
upstream origin, touching neither the mirror nor the refresh machinery.
Every request emits one inbound-command-count and one
inbound-command-latency measurement. -/
def handleRequest (ps : ProxyState) (t : CommandType) (url : String) (body : List Nat) :
    HandleOutcome × ProxyState × List Measure :=
  match t with
  | .receivePack =>
    (.forwardedUpstream body, ps,
     [.inboundCommandCount, .inboundCommandProcessingTime])
  | .infoRefs =>
    let r := resolve ps.cache url
    let ps' : ProxyState :=
      if r.1.state = .fresh then ⟨r.2, ps.refreshes⟩ else ⟨r.2, ps.refreshes + 1⟩
    (.servedFromMirror url, ps',
     [.inboundCommandCount, .inboundCommandProcessingTime])
  | .uploadPack =>
    let r := resolve ps.cache url
    let ps' : ProxyState :=
      if r.1.state = .fresh then ⟨r.2, ps.refreshes⟩ else ⟨r.2, ps.refreshes + 1⟩
    (.servedFromMirror url, ps',
     [.inboundCommandCount, .inboundCommandProcessingTime])

/-- C6: a ReceivePack request is pure pass-through — the body is forwarded
unmodified to the upstream origin, the cache manager state (mirror map and
directories) is unchanged, and no refresh is triggered. -/
theorem receive_pack_passthrough (ps : ProxyState) (url : String) (body : List Nat) :
    (handleRequest ps .receivePack url body).1 = .forwardedUpstream body ∧
    (handleRequest ps .receivePack url body).2.1.cache = ps.cache ∧
    (handleRequest ps .receivePack url body).2.1.refreshes = ps.refreshes :=
  ⟨rfl, rfl, rfl⟩

/-- C7: both inbound metric views carry exactly the three tag dimensions
command type, canonical status and cache state, and every inbound request
emits exactly one inbound-command-count and one inbound-command-latency
measurement. -/
theorem inbound_views_tags_and_emission (ps : ProxyState) (t : CommandType)
    (url : String) (body : List Nat) :
    inboundCountView.tagKeys =
      [.commandTypeKey, .commandCanonicalStatusKey, .commandCacheStateKey] ∧
    inboundLatencyView.tagKeys =
      [.commandTypeKey, .commandCanonicalStatusKey, .commandCacheStateKey] ∧
    countMeasure (handleRequest ps t url body).2.2 .inboundCommandCount = 1 ∧
    countMeasure (handleRequest ps t url body).2.2 .inboundCommandProcessingTime = 1 := by
  refine ⟨rfl, rfl, ?_, ?_⟩ <;> cases t <;> rfl

/-- The emission list of an ensureFresh arrival: a blocking-time sample for
a joiner, nothing for the caller that becomes the refresher. -/
theorem arrive_emission (s : CoordState) (c : Nat) :
    (ensureFreshArrive s c).2 =
      (if s.estate = .refreshing then [Measure.upstreamFetchWaitingTime] else []) := by
  rw [ensureFreshArrive]
  split <;> simp_all

/-- C8: both outbound metric views carry exactly the two tag dimensions
command type and canonical status; a caller entering ensureFresh emits no
outbound measurement (in particular a waiting caller emits none), and each
actually performed upstream fetch emits, at its completion, exactly one
outbound-command-count and one outbound-command-latency measurement. -/
theorem outbound_views_tags_and_emission (s : CoordState) (c : Nat) (ok : Bool) :
    outboundCountView.tagKeys = [.commandTypeKey, .commandCanonicalStatusKey] ∧
    outboundLatencyView.tagKeys = [.commandTypeKey, .commandCanonicalStatusKey] ∧
    countMeasure (ensureFreshArrive s c).2 .outboundCommandCount = 0 ∧
    countMeasure (ensureFreshArrive s c).2 .outboundCommandProcessingTime = 0 ∧
    (∀ (s' : CoordState) (ms : List Measure),
      refreshComplete s ok = some (s', ms) →
        countMeasure ms .outboundCommandCount = 1 ∧
        countMeasure ms .outboundCommandProcessingTime = 1) := by
  refine ⟨rfl, rfl, ?_, ?_, ?_⟩
  · rw [arrive_emission]
    split <;> rfl
  · rw [arrive_emission]
    split <;> rfl
  · intro s' ms hc
    rw [refreshComplete] at hc
    split at hc
    · injection hc with hc
      injection hc with h1 h2
      subst h2
      exact ⟨rfl, rfl⟩
    · cases hc

/-- C8 witness: the fetch started by the first arrival on a fresh entry
emits, at completion, exactly one outbound-command-count and one
outbound-command-latency measurement. -/
theorem outbound_views_witness :
    countMeasure
      [Measure.outboundCommandCount, Measure.outboundCommandProcessingTime]
      .outboundCommandCount = 1 ∧
    countMeasure
      [Measure.outboundCommandCount, Measure.outboundCommandProcessingTime]
      .outboundCommandProcessingTime = 1 :=
  (outbound_views_tags_and_emission (ensureFreshArrive coordInit 0).1 1 true).2.2.2.2
    (refreshCompleteState (ensureFreshArrive coordInit 0).1 true)
    [Measure.outboundCommandCount, Measure.outboundCommandProcessingTime]
    (by decide)

/-- C4 counterexample: the healthz body is not exactly "ok" — main.go writes
"ok\n", with a trailing newline. -/
theorem healthz_body_not_exactly_ok :
    ¬ (healthzHandler ⟨"GET", "/healthz"⟩).body = "ok" := by
  decide

/-- C4 (amended): for every HTTP request, the healthz handler responds with
Content-Type text/plain and a body that is exactly "ok" followed by a
newline ("ok\n"). -/
theorem healthz_response (req : HttpRequest) :
    (healthzHandler req).contentType = "text/plain" ∧
    (healthzHandler req).body = "ok\n" :=
  ⟨rfl, rfl⟩

/-- C9: the error-reporter variable er is declared but never assigned, so
the ServerConfig built in main and handed to the HTTP handler always
carries an absent (nil) ErrorReporter hook, while the other hooks are
present. -/
theorem error_reporter_absent (cacheRoot : String)
    (canon : String → Except String String) :
    (mainConfig cacheRoot canon).errorReporter = none ∧
    (mainConfig cacheRoot canon).requestLogger.isSome = true ∧
    (mainConfig cacheRoot canon).longRunningOperationLogger.isSome = true :=
  ⟨rfl, rfl, rfl⟩

/-- C10: the default request logger writes a log line carrying the status,
request size, response size and latency exactly when dumping the request
succeeds; when the dump fails it returns without logging anything and the
dump error is discarded (no trace of it in the result). -/
theorem request_logger_logs_iff_dump_succeeds
    (dumpResult : Except String String) (e d : String)
    (status requestSize responseSize latency : Int) :
    (rl dumpResult status requestSize responseSize latency).isSome = dumpResult.isOk ∧
    rl (Except.error e) status requestSize responseSize latency = none ∧
    rl (Except.ok d) status requestSize responseSize latency =
      some ⟨d, status, requestSize, responseSize, latency⟩ := by
  refine ⟨?_, rfl, rfl⟩
  cases dumpResult <;> rfl

end Goblet
